import Mathlib

/-!
Verification of the `vite-react-tailwind` template server and client against its
design specification.

The development shallowly embeds the TypeScript sources:
  - `server/src/config/config.ts` : environment helpers `env`, `envNumber` and the
    `serverConfig` record (JavaScript `parseInt(·, 10)` is embedded as `jsParseInt`);
  - `server/src/app.ts` (`createApp`) : the middleware registration order and the
    route table (`/health` at the root, `healthRouter` mounted at `/api/health`,
    Express's default 404 for everything else);
  - `server/src/index.ts` : `gracefulShutdown` over a model of Node's
    `net.Server.close` callback registration and the `'close'` event;
  - `client/src/pages/AppPage/AppPage.tsx` : the counter state.

Machine integers and JS numbers are embedded as `Int`/`Nat`/`Rat`; environments are
partial maps `String → Option String`.
-/

namespace Babywise

/-- An environment: `process.env[key]` yields a string or `undefined`. -/
def Env : Type := String → Option String

/-- Character is an ASCII decimal digit. -/
def isDigitChar (c : Char) : Bool := '0' ≤ c && c ≤ '9'

/-- JavaScript whitespace skipped by `parseInt` (ASCII subset: space, tab, LF, VT, FF, CR). -/
def isJsSpace (c : Char) : Bool :=
  c = ' ' || c = '\t' || c = '\n' || c = '\x0b' || c = '\x0c' || c = '\r'

/-- Numeric value of a list of decimal digit characters, most significant first. -/
def digitsToNat (ds : List Char) : Nat :=
  ds.foldl (fun a c => 10 * a + (c.toNat - '0'.toNat)) 0

/-- Embedding of JavaScript `parseInt(s, 10)`: skip leading whitespace, read an
optional sign, then the longest prefix of decimal digits; `none` models `NaN`
(no digits found). The integer value is exact (float rounding of very long digit
strings is not modelled). -/
def jsParseInt (s : String) : Option Int :=
  let cs := s.data.dropWhile isJsSpace
  let signed : Bool × List Char :=
    match cs with
    | '-' :: r => (true, r)
    | '+' :: r => (false, r)
    | r => (false, r)
  let ds := signed.2.takeWhile isDigitChar
  if ds.isEmpty then none
  else some ((if signed.1 then -1 else 1) * (digitsToNat ds : Int))

/-- Embedding of `config.ts`'s `env`: `process.env[key] || defaultValue`.
JavaScript `||` takes the default when the value is absent or the empty string
(the only falsy strings). -/
def env (e : Env) (key defaultValue : String) : String :=
  match e key with
  | none => defaultValue
  | some v => if v = "" then defaultValue else v

/-- Embedding of `config.ts`'s `envNumber`: `undefined` gives the default, otherwise
`parseInt(value, 10)` with the default substituted exactly when the parse is `NaN`. -/
def envNumber (e : Env) (key : String) (defaultValue : Int) : Int :=
  match e key with
  | none => defaultValue
  | some value =>
    match jsParseInt value with
    | none => defaultValue
    | some parsed => parsed

/-- The `serverConfig` record of `config.ts`. -/
structure ServerConfig where
  port : Int
  nodeEnv : String
  isDev : Bool
  isProd : Bool
  clientUrl : String
  logLevel : String
  requestTimeout : Int
  deriving Repr, DecidableEq

/-- Embedding of the `serverConfig` value of `config.ts`, parametrised by the
environment it is constructed from. -/
def serverConfig (e : Env) : ServerConfig :=
  { port := envNumber e "PORT" 3000
  , nodeEnv := env e "NODE_ENV" "development"
  , isDev := env e "NODE_ENV" "development" == "development"
  , isProd := env e "NODE_ENV" "development" == "production"
  , clientUrl := "http://localhost:" ++ env e "VITE_DEV_PORT" "5173"
  , logLevel := env e "LOG_LEVEL" "info"
  , requestTimeout := envNumber e "REQUEST_TIMEOUT" 30000 }

/-- The empty environment. -/
def emptyEnv : Env := fun _ => none

/-- A singleton environment binding one key to one value. -/
def singleEnv (key value : String) : Env :=
  fun k => if k = key then some value else none

example : jsParseInt "8080" = some 8080 := by decide
example : jsParseInt "" = none := by decide
example : jsParseInt "80abc" = some 80 := by decide
example : jsParseInt "3.9" = some 3 := by decide
example : jsParseInt "  -42x" = some (-42) := by decide
example : jsParseInt "abc" = none := by decide
example : (serverConfig emptyEnv).port = 3000 := by decide

/-- C6: configuration resolution of `PORT` is total (the embedding is a total
function) and: a value parseable as a base-10 integer resolves to its `parseInt`
result; a non-parseable value, an absent `PORT`, or an empty `PORT` resolves to
the default `3000`. -/
theorem port_resolution_spec (e : Env) :
    (∀ s n, e "PORT" = some s → jsParseInt s = some n → (serverConfig e).port = n) ∧
    (∀ s, e "PORT" = some s → jsParseInt s = none → (serverConfig e).port = 3000) ∧
    (e "PORT" = none → (serverConfig e).port = 3000) ∧
    (e "PORT" = some "" → (serverConfig e).port = 3000) := by
  refine ⟨?_, ?_, ?_, ?_⟩
  · intro s n hs hn
    simp [serverConfig, envNumber, hs, hn]
  · intro s hs hn
    simp [serverConfig, envNumber, hs, hn]
  · intro h
    simp [serverConfig, envNumber, h]
  · intro h
    have : jsParseInt "" = none := by decide
    simp [serverConfig, envNumber, h, this]

/-- Witness for C6 at the concrete environment `PORT=8080`. -/
theorem port_resolution_spec_witness :
    (serverConfig (singleEnv "PORT" "8080")).port = 8080 :=
  (port_resolution_spec (singleEnv "PORT" "8080")).1 "8080" 8080 (by decide) (by decide)

/-- C10: `envNumber` has `parseInt` prefix semantics: whenever `PORT` is present,
the resolved port is exactly `(jsParseInt value).getD 3000`, so a value beginning
with an integer followed by junk resolves to the integer prefix and the default
branch fires exactly when `parseInt` is `NaN`; in particular `"80abc"` parses to
`80` and `"3.9"` to `3`. -/
theorem envNumber_parseInt_semantics (e : Env) (s : String) (h : e "PORT" = some s) :
    (serverConfig e).port = (jsParseInt s).getD 3000 ∧
    jsParseInt "80abc" = some 80 ∧ jsParseInt "3.9" = some 3 := by
  refine ⟨?_, by decide, by decide⟩
  cases hp : jsParseInt s with
  | none => simp [serverConfig, envNumber, h, hp]
  | some n => simp [serverConfig, envNumber, h, hp]

/-- Witness for C10 at the concrete environment `PORT=80abc`. -/
theorem envNumber_parseInt_semantics_witness :
    (serverConfig (singleEnv "PORT" "80abc")).port = (jsParseInt "80abc").getD 3000 :=
  (envNumber_parseInt_semantics (singleEnv "PORT" "80abc") "80abc" (by decide)).1

/-- C8: the string helper `env` returns the environment value verbatim when present
and non-empty, and the default when the value is absent or empty; it is a total
function of its inputs. -/
theorem env_verbatim_or_default (e : Env) (key d : String) :
    (∀ v, e key = some v → v ≠ "" → env e key d = v) ∧
    (e key = some "" → env e key d = d) ∧
    (e key = none → env e key d = d) := by
  refine ⟨?_, ?_, ?_⟩
  · intro v hv hne
    simp [env, hv, hne]
  · intro h
    simp [env, h]
  · intro h
    simp [env, h]

/-- Witness for C8 at the concrete environment `LOG_LEVEL=debug`. -/
theorem env_verbatim_or_default_witness :
    env (singleEnv "LOG_LEVEL" "debug") "LOG_LEVEL" "info" = "debug" :=
  (env_verbatim_or_default (singleEnv "LOG_LEVEL" "debug") "LOG_LEVEL" "info").1
    "debug" (by decide) (by decide)

/-- C7: the derived flags of `serverConfig`: `isDev` holds exactly when the resolved
`nodeEnv` is `"development"`, `isProd` exactly when it is `"production"`, the two are
never simultaneously true, any other resolved value makes both false, and an absent
`NODE_ENV` defaults to `"development"` so `isDev` is true. -/
theorem nodeEnv_flags_spec (e : Env) :
    ((serverConfig e).isDev = true ↔ (serverConfig e).nodeEnv = "development") ∧
    ((serverConfig e).isProd = true ↔ (serverConfig e).nodeEnv = "production") ∧
    ¬((serverConfig e).isDev = true ∧ (serverConfig e).isProd = true) ∧
    ((serverConfig e).nodeEnv ≠ "development" → (serverConfig e).nodeEnv ≠ "production" →
      (serverConfig e).isDev = false ∧ (serverConfig e).isProd = false) ∧
    (e "NODE_ENV" = none → (serverConfig e).isDev = true) := by
  refine ⟨?_, ?_, ?_, ?_, ?_⟩
  · simp [serverConfig]
  · simp [serverConfig]
  · rintro ⟨hd, hp⟩
    simp [serverConfig] at hd hp
    rw [hd] at hp
    exact absurd hp (by decide)
  · intro hd hp
    simp [serverConfig] at hd hp ⊢
    exact ⟨hd, hp⟩
  · intro h
    simp [serverConfig, env, h]

/-- Witness for C7 at the empty environment: `NODE_ENV` absent forces `isDev`. -/
theorem nodeEnv_flags_spec_witness :
    (serverConfig emptyEnv).isDev = true :=
  (nodeEnv_flags_spec emptyEnv).2.2.2.2 rfl

/-!
Client counter (`AppPage.tsx`). The page holds two pieces of `useState` state:
`count` (initialised to `0`) and `message`. The Increment button runs
`setCount (c => c + 1)`; the counter panel displays `count`.
-/

/-- The in-memory state of one mounted `AppPage`: the counter and the server-status
message (empty until the health fetch resolves). -/
structure AppPageState where
  count : Nat
  message : String
  deriving Repr, DecidableEq

/-- Initial state of a mount: `useState(0)` and `useState("")`. -/
def appPageInit : AppPageState := { count := 0, message := "" }

/-- One click of the Increment button: `setCount (c => c + 1)`. -/
def clickIncrement (st : AppPageState) : AppPageState :=
  { st with count := st.count + 1 }

/-- State after `n` Increment clicks from the initial mount state. -/
def afterClicks : Nat → AppPageState
  | 0 => appPageInit
  | n + 1 => clickIncrement (afterClicks n)

/-- The value the counter panel displays is the `count` state. -/
def displayedCount (st : AppPageState) : Nat := st.count

/-- C9: within one mount the counter starts at 0, each Increment click adds exactly
one, after `n` clicks the displayed value is `n`, and the counter is monotonically
non-decreasing in the number of clicks. -/
theorem counter_after_clicks (n : Nat) :
    displayedCount appPageInit = 0 ∧
    (∀ st : AppPageState, (clickIncrement st).count = st.count + 1) ∧
    displayedCount (afterClicks n) = n ∧
    (∀ m, m ≤ n → displayedCount (afterClicks m) ≤ displayedCount (afterClicks n)) := by
  have key : ∀ k, displayedCount (afterClicks k) = k := by
    intro k
    induction k with
    | zero => rfl
    | succ k ih => simp [afterClicks, clickIncrement, displayedCount] at ih ⊢; omega
  refine ⟨rfl, fun st => rfl, key n, ?_⟩
  intro m hm
  rw [key m, key n]
  exact hm

/-- Witness for C9 at `n = 3` (monotonicity discharged at `m = 2`). -/
theorem counter_after_clicks_witness :
    displayedCount (afterClicks 3) = 3 ∧
    displayedCount (afterClicks 2) ≤ displayedCount (afterClicks 3) :=
  ⟨(counter_after_clicks 3).2.2.1, (counter_after_clicks 3).2.2.2 2 (by decide)⟩

/-!
Server lifecycle (`index.ts`). `gracefulShutdown` logs a signal line and calls
`httpServer.close(() => console.log("[Server] HTTP server closed"))`. Node's
`net.Server.close(cb)` semantics (modelled below): the callback is registered as a
one-shot listener of the `'close'` event — registered to be invoked with an
`ERR_SERVER_NOT_RUNNING` error argument when the handle is already gone, and with
no error otherwise — and the listening handle, if any, is closed and cleared.
When the `'close'` event eventually fires (after in-flight connections drain),
every registered listener runs once. The source's callback ignores its error
argument and logs unconditionally. -/

/-- State of the HTTP server wrapper: whether the listening handle is live, the
close listeners registered so far (`true` marks a listener that will receive an
`ERR_SERVER_NOT_RUNNING` error argument), and the console log. -/
structure ServerState where
  handleOpen : Bool
  closeListeners : List Bool
  log : List String
  deriving Repr, DecidableEq

/-- Model of Node's `net.Server.close(cb)` with the `gracefulShutdown` callback:
register the callback as a `'close'` listener (flagged with an error argument when
the handle is already gone), then close and clear the handle. -/
def serverClose (st : ServerState) : ServerState :=
  { handleOpen := false
  , closeListeners := st.closeListeners ++ [!st.handleOpen]
  , log := st.log }

/-- Embedding of `gracefulShutdown(signal)` from `index.ts`: log the signal line,
then `httpServer.close(...)`. -/
def gracefulShutdown (signal : String) (st : ServerState) : ServerState :=
  serverClose
    { st with
      log := st.log ++ ["\n[Server] " ++ signal ++ " received, shutting down gracefully..."] }

/-- The `'close'` event firing after all connections drain: every registered
listener runs once; the source's callback ignores its error argument and logs
`"[Server] HTTP server closed"` unconditionally. -/
def emitClose (st : ServerState) : ServerState :=
  { handleOpen := st.handleOpen
  , closeListeners := []
  , log := st.log ++ st.closeListeners.map (fun _ => "[Server] HTTP server closed") }

/-- A server in the `LISTENING` state: live handle, no listeners, empty log. -/
def listeningState : ServerState :=
  { handleOpen := true, closeListeners := [], log := [] }

/-- Number of `"[Server] HTTP server closed"` confirmation lines in the log. -/
def closedLogCount (st : ServerState) : Nat :=
  st.log.countP (fun l => l == "[Server] HTTP server closed")

example :
    closedLogCount (emitClose (gracefulShutdown "SIGINT"
      (gracefulShutdown "SIGTERM" listeningState))) = 2 := by decide

/-- A logged signal line never coincides with the closed-confirmation line: the
former starts with a newline, the latter with a bracket. -/
theorem signalLine_ne_closedLine (s : String) :
    ("\n[Server] " ++ s ++ " received, shutting down gracefully..." =
      "[Server] HTTP server closed") = False := by
  simp only [eq_iff_iff, iff_false]
  intro h
  have hd := congrArg String.data h
  rw [String.data_append, String.data_append] at hd
  have hh := congrArg List.head? hd
  simp at hh

/-- Counterexample to C1: from the listening state, two consecutive calls of
`gracefulShutdown` register the close callback twice, and when the close event
fires the `"[Server] HTTP server closed"` confirmation is emitted twice — more
than once, contradicting the claim. -/
theorem shutdown_twice_counterexample :
    closedLogCount (emitClose (gracefulShutdown "SIGINT"
      (gracefulShutdown "SIGTERM" listeningState))) = 2 ∧
    ¬ closedLogCount (emitClose (gracefulShutdown "SIGINT"
      (gracefulShutdown "SIGTERM" listeningState))) ≤ 1 := by decide

/-- C1 (amended): two consecutive `gracefulShutdown` calls never raise (every step
is a total state transformation); the listening handle is closed by the first call
and the second call finds it already cleared, so the stop-accepting-connections
transition happens exactly once; but each call registers the close-confirmation
callback (the second flagged with the `ERR_SERVER_NOT_RUNNING` error argument the
source callback ignores), so when the close event fires the
`"[Server] HTTP server closed"` line is emitted once per call — twice in total,
against once for a single call. -/
theorem shutdown_twice_amended (s1 s2 : String) :
    (gracefulShutdown s1 listeningState).handleOpen = false ∧
    (gracefulShutdown s2 (gracefulShutdown s1 listeningState)).handleOpen = false ∧
    (gracefulShutdown s1 listeningState).closeListeners = [false] ∧
    (gracefulShutdown s2 (gracefulShutdown s1 listeningState)).closeListeners =
      [false, true] ∧
    closedLogCount (emitClose (gracefulShutdown s1 listeningState)) = 1 ∧
    closedLogCount (emitClose (gracefulShutdown s2 (gracefulShutdown s1 listeningState))) = 2 := by
  refine ⟨rfl, rfl, rfl, rfl, ?_, ?_⟩ <;>
    simp [gracefulShutdown, serverClose, emitClose, listeningState, closedLogCount,
      List.countP_append, List.countP_cons, signalLine_ne_closedLine]

/-!
Request-handling pipeline (`app.ts`, `createApp`). The middleware and routes are
registered on the Express app in source order: `helmet()`, `cors(...)`,
`compression()`, `requestLogger`, `express.json()`, `express.urlencoded(...)`,
then the routes (`app.get("/health", ...)`, `app.use("/api/health", healthRouter)`,
with Express's final handler answering 404 when nothing matched). For each
request Express runs the registered stack front to back, each stage either
passing control on (`next()`) or terminating the response. -/

/-- The stages `createApp` registers. -/
inductive Stage where
  | helmet
  | cors
  | compression
  | requestLogger
  | jsonParser
  | urlencodedParser
  | routeDispatch
  deriving Repr, DecidableEq

/-- The registration order of `createApp` in `app.ts`. -/
def middlewareStack : List Stage :=
  [Stage.helmet, Stage.cors, Stage.compression, Stage.requestLogger,
   Stage.jsonParser, Stage.urlencodedParser, Stage.routeDispatch]

/-- The trace of stages a request actually executes: stages run front to back,
each at most once, and a stage that terminates the response (as decided by the
request, e.g. a CORS preflight answered by `cors`) stops the walk. -/
def runTrace (terminates : Stage → Bool) : List Stage → List Stage
  | [] => []
  | s :: rest => if terminates s then [s] else s :: runTrace terminates rest

/-- Any trace through a stack is an initial segment of it. -/
theorem runTrace_take (terminates : Stage → Bool) :
    ∀ l : List Stage, ∃ k, runTrace terminates l = l.take k := by
  intro l
  induction l with
  | nil => exact ⟨0, rfl⟩
  | cons s rest ih =>
    by_cases h : terminates s = true
    · exact ⟨1, by simp [runTrace, h]⟩
    · obtain ⟨k, hk⟩ := ih
      exact ⟨k + 1, by simp [runTrace, h, hk]⟩

/-- C2: `createApp` registers each stage exactly once, in the fixed order helmet,
cors, compression, request logging, JSON body parsing, URL-encoded body parsing,
route dispatch; every request's executed trace is an initial segment of that
order (so no stage runs twice and no stage precedes an earlier-listed one), and a
request no stage short-circuits runs all seven stages in order. -/
theorem middleware_order_spec :
    middlewareStack =
      [Stage.helmet, Stage.cors, Stage.compression, Stage.requestLogger,
       Stage.jsonParser, Stage.urlencodedParser, Stage.routeDispatch] ∧
    middlewareStack.Nodup ∧
    (∀ terminates : Stage → Bool, ∃ k,
      runTrace terminates middlewareStack = middlewareStack.take k) ∧
    runTrace (fun _ => false) middlewareStack = middlewareStack := by
  refine ⟨rfl, by decide, ?_, by decide⟩
  intro terminates
  exact runTrace_take terminates middlewareStack

/-!
Timestamps. The handlers call `new Date().toISOString()`, which renders the
current instant as `YYYY-MM-DDTHH:mm:ss.sssZ`. The JS `Date` object is embedded
as a record of calendar fields with the ranges the runtime guarantees; the
renderer below is the fixed-width decimal layout of `toISOString`, and
`parseIsoDate` is a strict parser of that layout used to state "parseable as a
valid date". -/

/-- Calendar fields of a JS `Date` at millisecond precision (UTC). -/
structure DateTime where
  year : Nat
  month : Nat
  day : Nat
  hour : Nat
  minute : Nat
  second : Nat
  millis : Nat
  deriving Repr, DecidableEq

/-- Field ranges a real `Date` guarantees (years of the four-digit ISO form). -/
def ValidDateTime (d : DateTime) : Prop :=
  1 ≤ d.month ∧ d.month ≤ 12 ∧ 1 ≤ d.day ∧ d.day ≤ 31 ∧
  d.hour ≤ 23 ∧ d.minute ≤ 59 ∧ d.second ≤ 59 ∧ d.millis ≤ 999 ∧ d.year ≤ 9999

instance (d : DateTime) : Decidable (ValidDateTime d) := by
  unfold ValidDateTime
  infer_instance

/-- The ASCII digit character of a value below ten. -/
def digitChar (n : Nat) : Char := Char.ofNat ('0'.toNat + n)

/-- Numeric value of an ASCII digit character, `none` for other characters. -/
def readDigit (c : Char) : Option Nat :=
  if '0' ≤ c && c ≤ '9' then some (c.toNat - '0'.toNat) else none

/-- Two-digit zero-padded rendering (the field is below 100). -/
def pad2 (n : Nat) : List Char := [digitChar (n / 10), digitChar (n % 10)]

/-- Three-digit zero-padded rendering (the field is below 1000). -/
def pad3 (n : Nat) : List Char :=
  [digitChar (n / 100), digitChar (n / 10 % 10), digitChar (n % 10)]

/-- Four-digit zero-padded rendering (the field is below 10000). -/
def pad4 (n : Nat) : List Char :=
  [digitChar (n / 1000), digitChar (n / 100 % 10), digitChar (n / 10 % 10),
   digitChar (n % 10)]

/-- Character list of the `Date.prototype.toISOString` layout
`YYYY-MM-DDTHH:mm:ss.sssZ`. -/
def toISOStringChars (d : DateTime) : List Char :=
  pad4 d.year ++ ('-' :: (pad2 d.month ++ ('-' :: (pad2 d.day ++
    ('T' :: (pad2 d.hour ++ (':' :: (pad2 d.minute ++ (':' :: (pad2 d.second ++
    ('.' :: (pad3 d.millis ++ ['Z']))))))))))))

/-- Embedding of `Date.prototype.toISOString`: `YYYY-MM-DDTHH:mm:ss.sssZ`. -/
def toISOString (d : DateTime) : String :=
  String.mk (toISOStringChars d)

/-- Read exactly `k` decimal digits, returning their value and the rest. -/
def readFixed : Nat → Nat → List Char → Option (Nat × List Char)
  | 0, acc, cs => some (acc, cs)
  | _ + 1, _, [] => none
  | k + 1, acc, c :: rest =>
    match readDigit c with
    | none => none
    | some dgt => readFixed k (10 * acc + dgt) rest

/-- Consume one expected character. -/
def expectChar (c : Char) : List Char → Option (List Char)
  | [] => none
  | c' :: rest => if c' = c then some rest else none

/-- Strict parser of the `toISOString` layout over a character list, with the
calendar-field range checks a date parser performs. -/
def parseIsoChars (l : List Char) : Option DateTime := do
  let (y, cs) ← readFixed 4 0 l
  let cs ← expectChar '-' cs
  let (mo, cs) ← readFixed 2 0 cs
  let cs ← expectChar '-' cs
  let (dy, cs) ← readFixed 2 0 cs
  let cs ← expectChar 'T' cs
  let (h, cs) ← readFixed 2 0 cs
  let cs ← expectChar ':' cs
  let (mi, cs) ← readFixed 2 0 cs
  let cs ← expectChar ':' cs
  let (sec, cs) ← readFixed 2 0 cs
  let cs ← expectChar '.' cs
  let (ms, cs) ← readFixed 3 0 cs
  let cs ← expectChar 'Z' cs
  if cs = [] then
    let d : DateTime := ⟨y, mo, dy, h, mi, sec, ms⟩
    if ValidDateTime d then some d else none
  else none

/-- Strict parser of the `toISOString` layout; succeeding means the string is an
ISO-8601 timestamp denoting a valid date. -/
def parseIsoDate (s : String) : Option DateTime :=
  parseIsoChars s.data

/-- Digit characters round-trip for values below ten. -/
theorem readDigit_digitChar (n : Nat) (h : n < 10) :
    readDigit (digitChar n) = some n := by
  interval_cases n <;> decide

/-- `readFixed 2` recovers a two-digit zero-padded field. -/
theorem readFixed_pad2 (n : Nat) (h : n ≤ 99) (rest : List Char) :
    readFixed 2 0 (pad2 n ++ rest) = some (n, rest) := by
  have h1 : n / 10 < 10 := by omega
  have h2 : n % 10 < 10 := Nat.mod_lt _ (by omega)
  simp [pad2, readFixed, readDigit_digitChar _ h1, readDigit_digitChar _ h2]
  omega

/-- `readFixed 3` recovers a three-digit zero-padded field. -/
theorem readFixed_pad3 (n : Nat) (h : n ≤ 999) (rest : List Char) :
    readFixed 3 0 (pad3 n ++ rest) = some (n, rest) := by
  have h1 : n / 100 < 10 := by omega
  have h2 : n / 10 % 10 < 10 := Nat.mod_lt _ (by omega)
  have h3 : n % 10 < 10 := Nat.mod_lt _ (by omega)
  simp [pad3, readFixed, readDigit_digitChar _ h1, readDigit_digitChar _ h2,
    readDigit_digitChar _ h3]
  omega

/-- `readFixed 4` recovers a four-digit zero-padded field. -/
theorem readFixed_pad4 (n : Nat) (h : n ≤ 9999) (rest : List Char) :
    readFixed 4 0 (pad4 n ++ rest) = some (n, rest) := by
  have h1 : n / 1000 < 10 := by omega
  have h2 : n / 100 % 10 < 10 := Nat.mod_lt _ (by omega)
  have h3 : n / 10 % 10 < 10 := Nat.mod_lt _ (by omega)
  have h4 : n % 10 < 10 := Nat.mod_lt _ (by omega)
  simp [pad4, readFixed, readDigit_digitChar _ h1, readDigit_digitChar _ h2,
    readDigit_digitChar _ h3, readDigit_digitChar _ h4]
  omega

/-- Bind-step form of `readFixed_pad2` for walking the parser. -/
theorem bind_readFixed_pad2 {α : Type} (n : Nat) (h : n ≤ 99) (rest : List Char)
    (f : Nat × List Char → Option α) :
    (readFixed 2 0 (pad2 n ++ rest) >>= f) = f (n, rest) := by
  rw [readFixed_pad2 n h]
  rfl

/-- Bind-step form of `readFixed_pad3` for walking the parser. -/
theorem bind_readFixed_pad3 {α : Type} (n : Nat) (h : n ≤ 999) (rest : List Char)
    (f : Nat × List Char → Option α) :
    (readFixed 3 0 (pad3 n ++ rest) >>= f) = f (n, rest) := by
  rw [readFixed_pad3 n h]
  rfl

/-- Bind-step form of `readFixed_pad4` for walking the parser. -/
theorem bind_readFixed_pad4 {α : Type} (n : Nat) (h : n ≤ 9999) (rest : List Char)
    (f : Nat × List Char → Option α) :
    (readFixed 4 0 (pad4 n ++ rest) >>= f) = f (n, rest) := by
  rw [readFixed_pad4 n h]
  rfl

/-- Bind-step for consuming an expected literal character. -/
theorem bind_expectChar {α : Type} (c : Char) (rest : List Char)
    (g : List Char → Option α) :
    (expectChar c (c :: rest) >>= g) = g rest := by
  simp [expectChar]

/-- Rendering a valid date with `toISOString` yields a string the strict ISO
parser maps back to the same date. -/
theorem parseIsoDate_toISOString (d : DateTime) (h : ValidDateTime d) :
    parseIsoDate (toISOString d) = some d := by
  obtain ⟨h1, h2, h3, h4, h5, h6, h7, h8, h9⟩ := h
  have hv : ValidDateTime d := ⟨h1, h2, h3, h4, h5, h6, h7, h8, h9⟩
  show parseIsoChars (toISOStringChars d) = some d
  unfold parseIsoChars toISOStringChars
  rw [bind_readFixed_pad4 d.year (by omega)]
  dsimp only []
  rw [bind_expectChar]
  rw [bind_readFixed_pad2 d.month (by omega)]
  dsimp only []
  rw [bind_expectChar]
  rw [bind_readFixed_pad2 d.day (by omega)]
  dsimp only []
  rw [bind_expectChar]
  rw [bind_readFixed_pad2 d.hour (by omega)]
  dsimp only []
  rw [bind_expectChar]
  rw [bind_readFixed_pad2 d.minute (by omega)]
  dsimp only []
  rw [bind_expectChar]
  rw [bind_readFixed_pad2 d.second (by omega)]
  dsimp only []
  rw [bind_expectChar]
  rw [bind_readFixed_pad3 d.millis (by omega)]
  dsimp only []
  rw [bind_expectChar]
  simp [hv]

example :
    parseIsoDate (toISOString ⟨2026, 10, 11, 12, 34, 56, 789⟩) =
      some ⟨2026, 10, 11, 12, 34, 56, 789⟩ :=
  parseIsoDate_toISOString _ (by decide)

/-!
Route handlers and dispatch. `app.ts` registers `app.get("/health", ...)` directly
on the app (root mount) and `app.use("/api/health", healthRouter)`; any request no
handler matches falls through to Express's final handler, which answers 404.
Express's default routing is non-strict (one trailing slash is accepted) and
case-insensitive (`caseSensitive` is off for apps and routers, and nothing in
`app.ts` overrides it), and a route declared with `get` also serves HEAD requests
(Express routes HEAD to the GET handler when no HEAD handler exists). Handlers
are parametrised by the clock reading (`new Date()`) and the process uptime in
milliseconds (`process.uptime()` returns it in seconds). -/

/-- The JSON body of the root `/health` handler. -/
structure HealthRootBody where
  status : String
  timestamp : String
  uptime : Rat
  deriving Repr, DecidableEq

/-- The JSON body of the `/api/health` route. -/
structure ApiHealthBody where
  status : String
  message : String
  timestamp : String
  deriving Repr, DecidableEq

/-- A response body: one of the two health payloads, or the default body of
Express's final 404 handler (on which the spec puts no requirements). -/
inductive Body where
  | rootHealth : HealthRootBody → Body
  | apiHealth : ApiHealthBody → Body
  | defaultBody : Body
  deriving Repr, DecidableEq

/-- The `status` JSON field of a body, when it has one. -/
def Body.statusField : Body → Option String
  | Body.rootHealth b => some b.status
  | Body.apiHealth b => some b.status
  | Body.defaultBody => none

/-- The `message` JSON field of a body, when it has one. -/
def Body.messageField : Body → Option String
  | Body.apiHealth b => some b.message
  | _ => none

/-- The `timestamp` JSON field of a body, when it has one. -/
def Body.timestampField : Body → Option String
  | Body.rootHealth b => some b.timestamp
  | Body.apiHealth b => some b.timestamp
  | Body.defaultBody => none

/-- The `uptime` JSON field of a body, when it has one. -/
def Body.uptimeField : Body → Option Rat
  | Body.rootHealth b => some b.uptime
  | _ => none

/-- An HTTP response: status code and JSON body. -/
structure Response where
  statusCode : Nat
  body : Body
  deriving Repr, DecidableEq

/-- An HTTP request as routing sees it: method and path. -/
structure Request where
  method : String
  path : String
  deriving Repr, DecidableEq

/-- Embedding of the `app.get("/health", ...)` handler of `app.ts`:
`res.json({status: "ok", timestamp: new Date().toISOString(), uptime: process.uptime()})`
with the implicit 200 status. -/
def healthHandler (now : DateTime) (uptimeMs : Nat) : Response :=
  { statusCode := 200
  , body := Body.rootHealth
      { status := "ok"
      , timestamp := toISOString now
      , uptime := (uptimeMs : Rat) / 1000 } }

/-- Modelled from the spec: the file `server/src/routes/health.ts` (the
`healthRouter` that `app.ts` mounts at `/api/health`) is not among the provided
sources — only its test suite is. Per the spec (and the test suite), its GET
handler responds `200 {status: "ok", message: "Server is running",
timestamp: <now>}`. -/
def apiHealthHandler (now : DateTime) : Response :=
  { statusCode := 200
  , body := Body.apiHealth
      { status := "ok"
      , message := "Server is running"
      , timestamp := toISOString now } }

/-- ASCII lowercase fold of one character, as Express's case-insensitive path
regexes compare paths (route literals here are ASCII). -/
def lowerChar (c : Char) : Char :=
  if 'A' ≤ c && c ≤ 'Z' then Char.ofNat (c.toNat + 32) else c

/-- Case-folded request path, for Express's default case-insensitive matching. -/
def lowerPath (p : String) : String :=
  String.mk (p.data.map lowerChar)

/-- Does the request reach a handler via `get`? Express serves both GET and HEAD
with a `get` route when no HEAD handler is registered (none is here). -/
def methodMatchesGet (m : String) : Bool :=
  m == "GET" || m == "HEAD"

/-- Does `app.get("/health", ...)` match the request (Express default routing:
case-insensitive, exact path or one trailing slash, GET or HEAD)? -/
def matchesRootHealth (r : Request) : Bool :=
  methodMatchesGet r.method &&
    (lowerPath r.path == "/health" || lowerPath r.path == "/health/")

/-- Does the GET handler of the router mounted at `/api/health` match the request
(the router's own path is `/`; same default case-insensitive, non-strict,
GET-or-HEAD matching)? -/
def matchesApiHealth (r : Request) : Bool :=
  methodMatchesGet r.method &&
    (lowerPath r.path == "/api/health" || lowerPath r.path == "/api/health/")

/-- Route dispatch of the app built by `createApp`: the first matching handler
runs; otherwise Express's final handler answers 404. -/
def dispatch (r : Request) (now : DateTime) (uptimeMs : Nat) : Response :=
  if matchesRootHealth r then healthHandler now uptimeMs
  else if matchesApiHealth r then apiHealthHandler now
  else { statusCode := 404, body := Body.defaultBody }

example :
    (dispatch ⟨"GET", "/HEALTH"⟩ ⟨2026, 1, 2, 3, 4, 5, 6⟩ 0).statusCode = 200 := by
  decide

example :
    (dispatch ⟨"HEAD", "/health"⟩ ⟨2026, 1, 2, 3, 4, 5, 6⟩ 0).statusCode = 200 := by
  decide

example :
    (dispatch ⟨"GET", "/Api/Health/"⟩ ⟨2026, 1, 2, 3, 4, 5, 6⟩ 0).statusCode = 200 := by
  decide

example :
    (dispatch ⟨"POST", "/health"⟩ ⟨2026, 1, 2, 3, 4, 5, 6⟩ 0).statusCode = 404 := by
  decide

/-- C3: a GET of `/health` — dispatched at the root mount, with no `/api` prefix —
answers 200 with a JSON body whose `status` is `"ok"`, whose `timestamp` is the
ISO-8601 rendering of the current instant and parses back as a valid date, and
whose `uptime` is the process uptime in seconds, a non-negative number. -/
theorem health_root_spec (now : DateTime) (uptimeMs : Nat) (h : ValidDateTime now) :
    (dispatch ⟨"GET", "/health"⟩ now uptimeMs).statusCode = 200 ∧
    (dispatch ⟨"GET", "/health"⟩ now uptimeMs).body.statusField = some "ok" ∧
    (dispatch ⟨"GET", "/health"⟩ now uptimeMs).body.timestampField =
      some (toISOString now) ∧
    parseIsoDate (toISOString now) = some now ∧
    (dispatch ⟨"GET", "/health"⟩ now uptimeMs).body.uptimeField =
      some ((uptimeMs : Rat) / 1000) ∧
    (0 : Rat) ≤ (uptimeMs : Rat) / 1000 ∧
    ("/health" : String).data.take 4 ≠ ("/api" : String).data := by
  have hm : matchesRootHealth ⟨"GET", "/health"⟩ = true := by decide
  exact ⟨by simp [dispatch, hm, healthHandler],
    by simp [dispatch, hm, healthHandler, Body.statusField],
    by simp [dispatch, hm, healthHandler, Body.timestampField],
    parseIsoDate_toISOString now h,
    by simp [dispatch, hm, healthHandler, Body.uptimeField],
    by positivity,
    by decide⟩

/-- Witness for C3 at a concrete valid clock reading and uptime. -/
theorem health_root_spec_witness :
    (dispatch ⟨"GET", "/health"⟩ ⟨2026, 1, 2, 3, 4, 5, 6⟩ 1500).statusCode = 200 :=
  (health_root_spec ⟨2026, 1, 2, 3, 4, 5, 6⟩ 1500 (by decide)).1

/-- C4: a GET of `/api/health` answers 200 with a JSON body whose `status` is
`"ok"`, whose `message` is `"Server is running"`, and whose `timestamp` is the
ISO-8601 rendering of the current instant and parses back as a valid date. -/
theorem api_health_spec (now : DateTime) (uptimeMs : Nat) (h : ValidDateTime now) :
    (dispatch ⟨"GET", "/api/health"⟩ now uptimeMs).statusCode = 200 ∧
    (dispatch ⟨"GET", "/api/health"⟩ now uptimeMs).body.statusField = some "ok" ∧
    (dispatch ⟨"GET", "/api/health"⟩ now uptimeMs).body.messageField =
      some "Server is running" ∧
    (dispatch ⟨"GET", "/api/health"⟩ now uptimeMs).body.timestampField =
      some (toISOString now) ∧
    parseIsoDate (toISOString now) = some now := by
  have hm : matchesRootHealth ⟨"GET", "/api/health"⟩ = false := by decide
  have hm2 : matchesApiHealth ⟨"GET", "/api/health"⟩ = true := by decide
  exact ⟨by simp [dispatch, hm, hm2, apiHealthHandler],
    by simp [dispatch, hm, hm2, apiHealthHandler, Body.statusField],
    by simp [dispatch, hm, hm2, apiHealthHandler, Body.messageField],
    by simp [dispatch, hm, hm2, apiHealthHandler, Body.timestampField],
    parseIsoDate_toISOString now h⟩

/-- Witness for C4 at a concrete valid clock reading. -/
theorem api_health_spec_witness :
    (dispatch ⟨"GET", "/api/health"⟩ ⟨2026, 1, 2, 3, 4, 5, 6⟩ 0).body.messageField =
      some "Server is running" :=
  (api_health_spec ⟨2026, 1, 2, 3, 4, 5, 6⟩ 0 (by decide)).2.2.1

/-- C5: a request matching neither the root `/health` route nor the `/api/health`
router is answered by the default handler with status 404 (its body is
unconstrained). -/
theorem unmatched_route_404 (r : Request) (now : DateTime) (uptimeMs : Nat)
    (h1 : matchesRootHealth r = false) (h2 : matchesApiHealth r = false) :
    (dispatch r now uptimeMs).statusCode = 404 := by
  simp [dispatch, h1, h2]

/-- Witness for C5 at the concrete request `GET /does-not-exist`. -/
theorem unmatched_route_404_witness :
    (dispatch ⟨"GET", "/does-not-exist"⟩ ⟨2026, 1, 2, 3, 4, 5, 6⟩ 0).statusCode = 404 :=
  unmatched_route_404 ⟨"GET", "/does-not-exist"⟩ ⟨2026, 1, 2, 3, 4, 5, 6⟩ 0
    (by decide) (by decide)

end Babywise
